import Mathlib

/-!
# WiFi provisioning via BLE: the provisioning state machine

A shallow embedding of `main.cpp` / `BleService.h`: the three global credential
cells, the GATT status attribute, the admission semaphore `wifi_connect_sem`,
the dispatcher callbacks of `WiFiProvisioner` and the join worker
`wifi_connect_thread`.  Bytes are natural numbers, buffers are lists of bytes,
and every call made to a collaborator (semaphore, network interface, GATT
server, advertising) is appended to a trace kept in the state.
-/

namespace WifiProvisioning

/-! ## Constants and collaborator types -/

/-- Size in bytes of the SSID buffer and of the SSID attribute (`BleService.h`). -/
def WIFI_SSID_LEN : Nat := 33

/-- Size in bytes of the password buffer and of the password attribute (`BleService.h`). -/
def WIFI_PWD_LEN : Nat := 64

/-- Largest token count of `wifi_connect_sem`: it is built by `Semaphore wifi_connect_sem(0)`,
the one-argument constructor of the Mbed OS semaphore, whose maximum count is `0xffff`. -/
def SEM_MAX_COUNT : Nat := 65535

/-- Values returned by `wifi->get_connection_status()`. -/
inductive nsapi_connection_status_t
  | NSAPI_STATUS_LOCAL_UP
  | NSAPI_STATUS_GLOBAL_UP
  | NSAPI_STATUS_DISCONNECTED
  | NSAPI_STATUS_CONNECTING
  deriving DecidableEq, Repr

/-- Authentication modes accepted by `wifi->connect` (the cases of `sec2str`). -/
inductive nsapi_security_t
  | NSAPI_SECURITY_NONE
  | NSAPI_SECURITY_WEP
  | NSAPI_SECURITY_WPA
  | NSAPI_SECURITY_WPA2
  | NSAPI_SECURITY_WPA_WPA2
  | NSAPI_SECURITY_UNKNOWN
  deriving DecidableEq, Repr

/-- Attribute handles a write event can carry: the three value handles of `BleService`
and any handle that is none of them. -/
inductive Handle
  | ssid
  | pwd
  | status
  | other
  deriving DecidableEq, Repr

/-- The fields of `GattWriteCallbackParams` read by `on_data_written`; `len` is `data.length`. -/
structure GattWriteCallbackParams where
  handle : Handle
  data : List Nat
  deriving DecidableEq, Repr

/-- Calls made to collaborators, in the order they are made.  `connect` carries the two
C strings the callee reads through the pointers it is given; `gatt_write` carries the byte
written to the status attribute, `none` when the value pointer is null. -/
inductive Call
  | sem_release
  | connect (ssid pwd : List Nat) (security : nsapi_security_t)
  | disconnect
  | gatt_write (value : Option Nat)
  | startAdvertising
  deriving DecidableEq, Repr

/-- Where `wifi_connect_thread` currently is: blocked in `wifi_connect_sem.acquire()`,
inside the blocking `wifi->connect`, or inside the loop of `get_ntp_timestamp`. -/
inductive WorkerPc
  | acquire
  | connect
  | probe
  deriving DecidableEq, Repr

/-- The globals of `main.cpp` together with the collaborators they talk to.
`gatt_status` is the byte held by the status attribute of the GATT server, `sem` the token
count of `wifi_connect_sem`, `wifi_status` what `wifi->get_connection_status()` returns,
`mem0` the byte found at address zero (read when the GATT server copies from a null
pointer), `log` the trace of collaborator calls. -/
structure State where
  wifi_ssid_name : List Nat
  wifi_pwd : List Nat
  wifi_connect_status : Nat
  gatt_status : Nat
  sem : Nat
  wifi_status : nsapi_connection_status_t
  worker : WorkerPc
  mem0 : Nat
  log : List Call
  deriving DecidableEq, Repr

/-- State at start-up: zeroed buffers, status `false`, `Semaphore(0)`, worker waiting,
interface not connected. -/
def init (mem0 : Nat) : State :=
  { wifi_ssid_name := List.replicate WIFI_SSID_LEN 0
    wifi_pwd := List.replicate WIFI_PWD_LEN 0
    wifi_connect_status := 0
    gatt_status := 0
    sem := 0
    wifi_status := nsapi_connection_status_t.NSAPI_STATUS_DISCONNECTED
    worker := WorkerPc.acquire
    mem0 := mem0
    log := [] }

/-! ## Memory helpers -/

/-- C `memset(dst, c, n)`.  A result longer than `dst` denotes a write past its end. -/
def memset (dst : List Nat) (c n : Nat) : List Nat :=
  List.replicate n c ++ dst.drop n

/-- C `memcpy(dst, src, n)` with `n` bytes available in `src`.  A result longer than `dst`
denotes a write past its end. -/
def memcpy (dst src : List Nat) (n : Nat) : List Nat :=
  src.take n ++ dst.drop n

/-- The C string a callee reads from the start of a buffer: the bytes before the first zero
byte.  This is what the code reads only when the buffer is `terminated`; when the buffer
holds no zero byte the real read runs past the buffer, the value returned here (the whole
buffer) is not what the callee sees, and statements about the strings passed to `connect`
carry `terminated` hypotheses. -/
def c_str (buf : List Nat) : List Nat :=
  buf.takeWhile (fun b => decide (b ≠ 0))

/-- A buffer holds a terminating zero byte. -/
def terminated (buf : List Nat) : Prop := 0 ∈ buf

instance (buf : List Nat) : Decidable (terminated buf) := by
  unfold terminated; infer_instance

/-! ## Collaborators -/

/-- The call `wifi_connect_sem.release()`: one more token unless the count is at its maximum. -/
def sem_release (st : State) : State :=
  { st with
    sem := if st.sem < SEM_MAX_COUNT then st.sem + 1 else st.sem
    log := st.log ++ [Call.sem_release] }

/-- The call `_ble.gattServer().write(statusHandle, value, 1)`: one byte is copied from
`value` into the status attribute; through a null pointer the byte at address zero is read. -/
def gattServer_write (value : Option Nat) (st : State) : State :=
  { st with
    gatt_status := match value with
      | some v => v
      | none => st.mem0
    log := st.log ++ [Call.gatt_write value] }

/-- The call `wifi->disconnect()`: an interface that is up goes down. -/
def wifi_disconnect (st : State) : State :=
  { st with
    wifi_status :=
      if st.wifi_status = nsapi_connection_status_t.NSAPI_STATUS_GLOBAL_UP
      then nsapi_connection_status_t.NSAPI_STATUS_DISCONNECTED else st.wifi_status
    log := st.log ++ [Call.disconnect] }

/-! ## `WiFiProvisioner` -/

/-- Source `WiFiProvisioner::update_wifi_connection_status`. -/
def update_wifi_connection_status (status : Nat) (st : State) : State :=
  let gatt_db_conn_status := st.gatt_status
  let st1 := if gatt_db_conn_status ≠ status then gattServer_write (some status) st else st
  { st1 with wifi_connect_status := status }

/-- Source `WiFiProvisioner::check_and_let_wifi_connect`. -/
def check_and_let_wifi_connect (st : State) : State :=
  if st.wifi_status = nsapi_connection_status_t.NSAPI_STATUS_GLOBAL_UP then st
  else if st.wifi_ssid_name.headD 0 ≠ 0 then sem_release st
  else { gattServer_write none st with wifi_connect_status := 0 }

/-- Source `WiFiProvisioner::on_data_written`.  In the status branch `params->data[0]` is the
first payload byte; the attribute has fixed length one, so the default is never read on a
write the table accepts. -/
def on_data_written (params : GattWriteCallbackParams) (st : State) : State :=
  match params.handle with
  | Handle.ssid =>
    let cleared := memset st.wifi_ssid_name 0 WIFI_SSID_LEN
    { st with wifi_ssid_name := memcpy cleared params.data params.data.length }
  | Handle.pwd =>
    let cleared := memset st.wifi_pwd 0 WIFI_PWD_LEN
    let st1 := { st with wifi_pwd := memcpy cleared params.data params.data.length }
    if st1.wifi_connect_status ≠ 0 then check_and_let_wifi_connect st1 else st1
  | Handle.status =>
    let st1 := { st with wifi_connect_status := params.data.headD 0 }
    if st1.wifi_connect_status ≠ 0 then check_and_let_wifi_connect st1
    else wifi_disconnect st1
  | Handle.other => st

/-- Source `WiFiProvisioner::onDisconnectionComplete`. -/
def onDisconnectionComplete (st : State) : State :=
  { st with log := st.log ++ [Call.startAdvertising] }

/-! ## The join worker `wifi_connect_thread` -/

/-- Authentication mode chosen by `wifi_connect_thread` from the first password byte. -/
def connect_security (st : State) : nsapi_security_t :=
  if st.wifi_pwd.headD 0 = 0 then nsapi_security_t.NSAPI_SECURITY_NONE
  else nsapi_security_t.NSAPI_SECURITY_WPA_WPA2

/-- First half of one iteration of `wifi_connect_thread`: `acquire()` takes a token and
`wifi->connect` is entered with the buffers as they are at that moment; the interface
reports `CONNECTING` while the call is in flight. -/
def wifi_connect_thread_begin (st : State) : State :=
  { st with
    sem := st.sem - 1
    worker := WorkerPc.connect
    wifi_status := nsapi_connection_status_t.NSAPI_STATUS_CONNECTING
    log := st.log ++ [Call.connect (c_str st.wifi_ssid_name) (c_str st.wifi_pwd)
      (connect_security st)] }

/-- Second half of the iteration: `wifi->connect` has returned `ret`.  On failure the status
is mirrored as false and the worker waits again; on success it enters `get_ntp_timestamp`.
The interface is up exactly when the call returned zero. -/
def wifi_connect_thread_resume (ret : Int) (st : State) : State :=
  if ret ≠ 0 then
    { update_wifi_connection_status 0
        { st with wifi_status := nsapi_connection_status_t.NSAPI_STATUS_DISCONNECTED } with
      worker := WorkerPc.acquire }
  else
    { st with
      wifi_status := nsapi_connection_status_t.NSAPI_STATUS_GLOBAL_UP
      worker := WorkerPc.probe }

/-- The loop of `get_ntp_timestamp` breaks once the interface is no longer up; the worker
returns to `acquire()`. -/
def get_ntp_timestamp_break (st : State) : State :=
  { st with worker := WorkerPc.acquire }

/-! ## The step relation -/

/-- A remote write the attribute table accepts: at most the declared size for the two array
attributes, exactly one byte for the fixed-length status attribute. -/
def accepted (params : GattWriteCallbackParams) : Prop :=
  match params.handle with
  | Handle.ssid => params.data.length ≤ WIFI_SSID_LEN
  | Handle.pwd => params.data.length ≤ WIFI_PWD_LEN
  | Handle.status => params.data.length = 1
  | Handle.other => True

instance (params : GattWriteCallbackParams) : Decidable (accepted params) := by
  unfold accepted; cases params.handle <;> infer_instance

/-- What the GATT server does with an accepted remote write before it invokes the
`onDataWritten` callback: the attribute value is replaced by the payload. -/
def gatt_store (params : GattWriteCallbackParams) (st : State) : State :=
  match params.handle with
  | Handle.status => { st with gatt_status := params.data.headD 0 }
  | _ => st

/-- Atomic steps of the system: dispatcher events, worker steps, and the link going down. -/
inductive Step
  | written (params : GattWriteCallbackParams)
  | bleDisconnected
  | workerAcquire
  | connectReturns (ret : Int)
  | linkDown
  | probeBreak
  deriving DecidableEq, Repr

/-- One step, `none` when the step is not enabled in the state. -/
def step (s : Step) (st : State) : Option State :=
  match s with
  | Step.written params =>
    if accepted params then some (on_data_written params (gatt_store params st)) else none
  | Step.bleDisconnected => some (onDisconnectionComplete st)
  | Step.workerAcquire =>
    if st.worker = WorkerPc.acquire ∧ 0 < st.sem then some (wifi_connect_thread_begin st)
    else none
  | Step.connectReturns ret =>
    if st.worker = WorkerPc.connect then some (wifi_connect_thread_resume ret st) else none
  | Step.linkDown =>
    if st.wifi_status = nsapi_connection_status_t.NSAPI_STATUS_GLOBAL_UP then
      some { st with wifi_status := nsapi_connection_status_t.NSAPI_STATUS_DISCONNECTED }
    else none
  | Step.probeBreak =>
    if st.worker = WorkerPc.probe ∧
        st.wifi_status ≠ nsapi_connection_status_t.NSAPI_STATUS_GLOBAL_UP
    then some (get_ntp_timestamp_break st) else none

/-- A sequence of steps from a state, `none` as soon as one is not enabled. -/
def run : List Step → State → Option State
  | [], st => some st
  | s :: rest, st => (step s st).bind (run rest)

/-! ## Observations on the trace -/

/-- Recognises a `connect` call. -/
def Call.isConnect : Call → Bool
  | Call.connect _ _ _ => true
  | _ => false

/-- Number of `wifi_connect_sem.release()` calls in a trace. -/
def releases (log : List Call) : Nat := log.count Call.sem_release

/-- Number of `wifi->connect` calls in a trace. -/
def connects (log : List Call) : Nat := log.countP Call.isConnect

/-- Number of `startAdvertising` calls in a trace. -/
def advertisings (log : List Call) : Nat := log.count Call.startAdvertising

/-- Remote write of the SSID attribute. -/
def writeSsid (s : List Nat) : Step := Step.written ⟨Handle.ssid, s⟩

/-- Remote write of the password attribute. -/
def writePwd (p : List Nat) : Step := Step.written ⟨Handle.pwd, p⟩

/-- Remote write of the status attribute. -/
def writeStatus (b : Nat) : Step := Step.written ⟨Handle.status, [b]⟩

/-- The bytes of "HomeNet". -/
def homeNet : List Nat := [72, 111, 109, 101, 78, 101, 116]

/-! ## Trace lemmas for the collaborators -/

@[simp] theorem sem_release_log (st : State) :
    (sem_release st).log = st.log ++ [Call.sem_release] := rfl

@[simp] theorem gattServer_write_log (v : Option Nat) (st : State) :
    (gattServer_write v st).log = st.log ++ [Call.gatt_write v] := rfl

@[simp] theorem wifi_disconnect_log (st : State) :
    (wifi_disconnect st).log = st.log ++ [Call.disconnect] := rfl

@[simp] theorem releases_append (l1 l2 : List Call) :
    releases (l1 ++ l2) = releases l1 + releases l2 := by
  simp [releases]

@[simp] theorem connects_append (l1 l2 : List Call) :
    connects (l1 ++ l2) = connects l1 + connects l2 := by
  simp [connects]

@[simp] theorem releases_single_release : releases [Call.sem_release] = 1 := by
  simp [releases]

@[simp] theorem releases_single_gatt (v : Option Nat) : releases [Call.gatt_write v] = 0 := by
  simp [releases]

@[simp] theorem releases_single_disconnect : releases [Call.disconnect] = 0 := by
  simp [releases]

@[simp] theorem releases_single_adv : releases [Call.startAdvertising] = 0 := by
  simp [releases]

@[simp] theorem releases_single_connect (s p : List Nat) (sec : nsapi_security_t) :
    releases [Call.connect s p sec] = 0 := by
  simp [releases]

@[simp] theorem connects_single_release : connects [Call.sem_release] = 0 := by
  simp [connects, Call.isConnect]

@[simp] theorem connects_single_gatt (v : Option Nat) : connects [Call.gatt_write v] = 0 := by
  simp [connects, Call.isConnect]

@[simp] theorem connects_single_disconnect : connects [Call.disconnect] = 0 := by
  simp [connects, Call.isConnect]

@[simp] theorem connects_single_adv : connects [Call.startAdvertising] = 0 := by
  simp [connects, Call.isConnect]

@[simp] theorem connects_single_connect (s p : List Nat) (sec : nsapi_security_t) :
    connects [Call.connect s p sec] = 1 := by
  simp [connects, Call.isConnect]

/-- What `check_and_let_wifi_connect` appends to the trace and does to the token count. -/
theorem check_and_let_wifi_connect_effect (st : State) :
    (st.wifi_status ≠ nsapi_connection_status_t.NSAPI_STATUS_GLOBAL_UP ∧
        st.wifi_ssid_name.headD 0 ≠ 0 →
      check_and_let_wifi_connect st = sem_release st) ∧
    (st.wifi_status = nsapi_connection_status_t.NSAPI_STATUS_GLOBAL_UP →
      check_and_let_wifi_connect st = st) ∧
    (st.wifi_status ≠ nsapi_connection_status_t.NSAPI_STATUS_GLOBAL_UP ∧
        st.wifi_ssid_name.headD 0 = 0 →
      check_and_let_wifi_connect st =
        { gattServer_write none st with wifi_connect_status := 0 }) := by
  refine ⟨?_, ?_, ?_⟩
  · rintro ⟨h1, h2⟩
    simp [check_and_let_wifi_connect, h1, h2, -List.headD_eq_head?_getD]
  · intro h1
    simp [check_and_let_wifi_connect, h1]
  · rintro ⟨h1, h2⟩
    simp [check_and_let_wifi_connect, h1, h2, -List.headD_eq_head?_getD]

/-! ## Claims about single handlers -/

/-- C9: `update_wifi_connection_status s` writes the status attribute exactly when the stored
attribute value differs from `s` (no write when equal, one write of `s` otherwise);
afterwards the attribute and the cached flag both equal `s`, and an immediate second call
with the same `s` adds no call to the trace. -/
theorem update_wifi_connection_status_mirrors_once (s : Nat) (st : State) :
    (update_wifi_connection_status s st).log =
        st.log ++ (if st.gatt_status = s then [] else [Call.gatt_write (some s)]) ∧
    (update_wifi_connection_status s st).gatt_status = s ∧
    (update_wifi_connection_status s st).wifi_connect_status = s ∧
    (update_wifi_connection_status s (update_wifi_connection_status s st)).log =
        (update_wifi_connection_status s st).log := by
  by_cases h : st.gatt_status = s
  · simp [update_wifi_connection_status, h]
  · simp [update_wifi_connection_status, h, gattServer_write]

/-- C10: for an accepted write event, `on_data_written` calls `release()` exactly once when
(the handle is the password and the cached flag was non-zero, or the handle is the status
attribute and the first payload byte is non-zero) and the interface is not `GLOBAL_UP` and
the first stored SSID byte is non-zero; in every other case it makes no `release()` call;
it never makes a `connect` call. -/
theorem on_data_written_release_iff (params : GattWriteCallbackParams) (st : State)
    (hacc : accepted params) :
    ((((params.handle = Handle.pwd ∧ st.wifi_connect_status ≠ 0) ∨
          (params.handle = Handle.status ∧ ∃ b rest, params.data = b :: rest ∧ b ≠ 0)) ∧
        st.wifi_status ≠ nsapi_connection_status_t.NSAPI_STATUS_GLOBAL_UP ∧
        st.wifi_ssid_name.headD 0 ≠ 0) →
      releases (on_data_written params st).log = releases st.log + 1) ∧
    (¬ (((params.handle = Handle.pwd ∧ st.wifi_connect_status ≠ 0) ∨
          (params.handle = Handle.status ∧ ∃ b rest, params.data = b :: rest ∧ b ≠ 0)) ∧
        st.wifi_status ≠ nsapi_connection_status_t.NSAPI_STATUS_GLOBAL_UP ∧
        st.wifi_ssid_name.headD 0 ≠ 0) →
      releases (on_data_written params st).log = releases st.log) ∧
    connects (on_data_written params st).log = connects st.log := by
  obtain ⟨handle, data⟩ := params
  cases handle
  · simp [on_data_written]
  · by_cases hf : st.wifi_connect_status = 0 <;>
      by_cases hu : st.wifi_status = nsapi_connection_status_t.NSAPI_STATUS_GLOBAL_UP <;>
      by_cases hs : st.wifi_ssid_name.headD 0 = 0 <;>
      simp [on_data_written, check_and_let_wifi_connect, hf, hu, hs, -List.headD_eq_head?_getD]
  · cases data with
    | nil => simp [accepted] at hacc
    | cons b rest =>
      by_cases hb : b = 0 <;>
        by_cases hu : st.wifi_status = nsapi_connection_status_t.NSAPI_STATUS_GLOBAL_UP <;>
        by_cases hs : st.wifi_ssid_name.headD 0 = 0 <;>
        simp [on_data_written, check_and_let_wifi_connect, hb, hu, hs, -List.headD_eq_head?_getD]
  · simp [on_data_written]

/-- Witness for C10: a status write of one non-zero byte at start-up with a stored SSID. -/
theorem on_data_written_release_iff_witness :
    accepted ⟨Handle.status, [1]⟩ ∧
    releases (on_data_written ⟨Handle.status, [1]⟩
      { init 0 with wifi_ssid_name := homeNet ++ List.replicate 26 0 }).log = 1 := by
  refine ⟨by decide, ?_⟩
  have h := (on_data_written_release_iff ⟨Handle.status, [1]⟩
    { init 0 with wifi_ssid_name := homeNet ++ List.replicate 26 0 } (by decide)).1
  exact h ⟨Or.inr ⟨rfl, 1, [], rfl, by decide⟩, by decide, by decide⟩

/-- C5 (as amended): handling a link-disconnect event makes exactly one call, the restart of
advertising, and leaves the status attribute and the cached status flag as they were. -/
theorem onDisconnectionComplete_only_readvertises (st : State) :
    (onDisconnectionComplete st).log = st.log ++ [Call.startAdvertising] ∧
    (onDisconnectionComplete st).gatt_status = st.gatt_status ∧
    (onDisconnectionComplete st).wifi_connect_status = st.wifi_connect_status :=
  ⟨rfl, rfl, rfl⟩

/-- C5 refuted as stated: after SSID "HomeNet" and status `1` are written the status is true,
and it is still true after the link-disconnect event (one advertising restart is made). -/
theorem onDisconnectionComplete_keeps_status_true :
    (run [writeSsid homeNet, writeStatus 1] (init 0)).map
        (fun st => (st.gatt_status, st.wifi_connect_status)) = some (1, 1) ∧
    (run [writeSsid homeNet, writeStatus 1, Step.bleDisconnected] (init 0)).map
        (fun st => (st.gatt_status, st.wifi_connect_status, advertisings st.log))
      = some (1, 1, 1) := by
  constructor <;> decide

/-! ## Stored credential fields -/

/-- Zero-fill followed by the copy of a payload that fits: the payload, then zero bytes up
to the size of the buffer. -/
theorem store_eq (buf s : List Nat) (n : Nat) (hbuf : buf.length = n) :
    memcpy (memset buf 0 n) s s.length = s ++ List.replicate (n - s.length) 0 := by
  have hdrop : buf.drop n = [] := List.drop_eq_nil_of_le (by omega)
  simp [memcpy, memset, hdrop, List.drop_replicate]

/-- A payload shorter than the buffer is stored inside it and is followed by a zero byte. -/
theorem store_terminated (buf s : List Nat) (n : Nat) (hbuf : buf.length = n)
    (hs : s.length < n) :
    (memcpy (memset buf 0 n) s s.length).length = n ∧
    terminated (memcpy (memset buf 0 n) s s.length) := by
  rw [store_eq buf s n hbuf]
  refine ⟨by simp; omega, ?_⟩
  have hpos : n - s.length ≠ 0 := by omega
  simp [terminated, hpos]

/-- Reading a C string stops at the first zero byte. -/
theorem c_str_append_zero (s t : List Nat) (hs : 0 ∉ s) : c_str (s ++ 0 :: t) = s := by
  induction s with
  | nil => simp [c_str]
  | cons a r ih =>
    have ha : a ≠ 0 := fun h => hs (by simp [h])
    have hr : 0 ∉ r := fun h => hs (by simp [h])
    have ih2 := ih hr
    have hd : decide (a ≠ 0) = true := by simp [ha]
    unfold c_str at ih2 ⊢
    rw [List.cons_append, List.takeWhile_cons, hd]
    exact congrArg (List.cons a) ih2

/-- A zero-free payload shorter than the buffer is read back unchanged as a C string. -/
theorem c_str_store (buf s : List Nat) (n : Nat) (hbuf : buf.length = n) (hs : s.length < n)
    (h0 : 0 ∉ s) : c_str (memcpy (memset buf 0 n) s s.length) = s := by
  rw [store_eq buf s n hbuf]
  obtain ⟨k, hk⟩ : ∃ k, n - s.length = k + 1 := ⟨n - s.length - 1, by omega⟩
  rw [hk, List.replicate_succ]
  exact c_str_append_zero s _ h0

/-- First byte of a stored payload. -/
theorem headD_store (buf s : List Nat) (n : Nat) (hbuf : buf.length = n) :
    (memcpy (memset buf 0 n) s s.length).headD 0 = s.headD 0 := by
  rw [store_eq buf s n hbuf]
  cases s with
  | nil => cases h : n - ([] : List Nat).length <;> simp [List.replicate]
  | cons a r => simp

/-- C7, the code at the two inputs the claim names: after a 33-byte SSID write and a 64-byte
password write (both accepted by the attribute table, no zero byte in the payload) each
buffer holds exactly the payload, fills its 33 respectively 64 bytes, and contains no
terminating zero byte. -/
theorem full_length_write_leaves_no_terminator :
    accepted ⟨Handle.ssid, List.replicate 33 65⟩ ∧
    accepted ⟨Handle.pwd, List.replicate 64 66⟩ ∧
    (run [writeSsid (List.replicate 33 65), writePwd (List.replicate 64 66)] (init 0)).map
        (fun st => (st.wifi_ssid_name, st.wifi_pwd, st.wifi_ssid_name.length, st.wifi_pwd.length,
          decide (terminated st.wifi_ssid_name), decide (terminated st.wifi_pwd)))
      = some (List.replicate 33 65, List.replicate 64 66, 33, 64, false, false) := by
  refine ⟨by decide, by decide, by decide⟩

/-- C2 (as amended): with an empty stored SSID, a password write makes no `release()` call and
no `connect` call and leaves the token count and the worker alone.  If the cached status
flag was zero it stays zero and the status attribute is untouched; if the interface reports
`GLOBAL_UP` both status values are left as they were; if the interface is not up the cached
flag is zero afterwards. -/
theorem password_write_with_empty_ssid (st : State) (data : List Nat)
    (hssid : st.wifi_ssid_name.headD 0 = 0) :
    releases (on_data_written ⟨Handle.pwd, data⟩ st).log = releases st.log ∧
    connects (on_data_written ⟨Handle.pwd, data⟩ st).log = connects st.log ∧
    (on_data_written ⟨Handle.pwd, data⟩ st).sem = st.sem ∧
    (on_data_written ⟨Handle.pwd, data⟩ st).worker = st.worker ∧
    (st.wifi_connect_status = 0 →
      (on_data_written ⟨Handle.pwd, data⟩ st).wifi_connect_status = 0 ∧
      (on_data_written ⟨Handle.pwd, data⟩ st).gatt_status = st.gatt_status) ∧
    (st.wifi_status = nsapi_connection_status_t.NSAPI_STATUS_GLOBAL_UP →
      (on_data_written ⟨Handle.pwd, data⟩ st).wifi_connect_status = st.wifi_connect_status ∧
      (on_data_written ⟨Handle.pwd, data⟩ st).gatt_status = st.gatt_status) ∧
    (st.wifi_status ≠ nsapi_connection_status_t.NSAPI_STATUS_GLOBAL_UP →
      (on_data_written ⟨Handle.pwd, data⟩ st).wifi_connect_status = 0) := by
  by_cases hf : st.wifi_connect_status = 0 <;>
    by_cases hu : st.wifi_status = nsapi_connection_status_t.NSAPI_STATUS_GLOBAL_UP <;>
    simp [on_data_written, check_and_let_wifi_connect, gattServer_write, hf, hu, hssid,
      -List.headD_eq_head?_getD]

/-- Witness for C2: the password "x" written at start-up, where the SSID is empty. -/
theorem password_write_with_empty_ssid_witness :
    (init 0).wifi_ssid_name.headD 0 = 0 ∧
    releases (on_data_written ⟨Handle.pwd, [120]⟩ (init 0)).log = releases (init 0).log :=
  ⟨by decide, (password_write_with_empty_ssid (init 0) [120] (by decide)).1⟩

/-- C2 refuted as stated: SSID "A" and status `1` are written, the join succeeds, the SSID is
rewritten to empty; the password write "x" then finds an empty SSID, a non-zero cached flag
and an interface that is up, and returns with the status attribute and the cached flag both
still `1`. -/
theorem password_write_with_empty_ssid_keeps_status_true :
    (run [writeSsid [65], writeStatus 1, Step.workerAcquire, Step.connectReturns 0,
          writeSsid []] (init 0)).map
        (fun st => (st.wifi_ssid_name.headD 0, st.gatt_status, st.wifi_connect_status))
      = some (0, 1, 1) ∧
    (run [writeSsid [65], writeStatus 1, Step.workerAcquire, Step.connectReturns 0,
          writeSsid [], writePwd [120]] (init 0)).map
        (fun st => (st.wifi_ssid_name.headD 0, st.gatt_status, st.wifi_connect_status))
      = some (0, 1, 1) := by
  constructor <;> decide

/-! ## The credential handshake -/

/-- An accepted status write of a non-zero byte, with a stored SSID and the interface not up:
the stack stores the byte, the callback caches it and releases one token. -/
theorem step_writeStatus_admits (st : State) (b : Nat) (hb : b ≠ 0)
    (hup : st.wifi_status ≠ nsapi_connection_status_t.NSAPI_STATUS_GLOBAL_UP)
    (hssid : st.wifi_ssid_name.headD 0 ≠ 0) :
    step (writeStatus b) st =
      some (sem_release { st with gatt_status := b, wifi_connect_status := b }) := by
  simp [step, writeStatus, accepted, gatt_store, on_data_written, check_and_let_wifi_connect,
    hb, hup, hssid, -List.headD_eq_head?_getD]

/-- The worker leaves `acquire()` as soon as it waits there and a token is available. -/
theorem step_workerAcquire_enabled (st : State) (hw : st.worker = WorkerPc.acquire)
    (hsem : 0 < st.sem) :
    step Step.workerAcquire st = some (wifi_connect_thread_begin st) := by
  simp [step, hw, hsem]

/-- C1 (as amended): from start-up, for a non-empty zero-free SSID `s` of at most 32 bytes and
a zero-free password `p` of at most 63 bytes, the writes of `s` and `p` alone make no call
and leave no token; the following status write of a non-zero byte releases one token, and
the worker then makes exactly one call `connect(s, p, auth)` with `auth` open when `p` is
empty and WPA/WPA2 otherwise, after which no token is left. -/
theorem handshake_then_status_write_connects_once (mem0 : Nat) (s p : List Nat) (b : Nat)
    (hs : s ≠ []) (hs0 : 0 ∉ s) (hslen : s.length ≤ 32)
    (hp0 : 0 ∉ p) (hplen : p.length ≤ 63) (hb : b ≠ 0) :
    (run [writeSsid s, writePwd p] (init mem0)).map (fun st => (st.log, st.sem))
      = some ([], 0) ∧
    (run [writeSsid s, writePwd p, writeStatus b, Step.workerAcquire] (init mem0)).map
        (fun st => (st.log, st.sem))
      = some ([Call.sem_release,
          Call.connect s p (if p = [] then nsapi_security_t.NSAPI_SECURITY_NONE
            else nsapi_security_t.NSAPI_SECURITY_WPA_WPA2)], 0) := by
  have hsacc : s.length ≤ WIFI_SSID_LEN := by simp [WIFI_SSID_LEN]; omega
  have hpacc : p.length ≤ WIFI_PWD_LEN := by simp [WIFI_PWD_LEN]; omega
  have h1 : step (writeSsid s) (init mem0) = some
      { init mem0 with
        wifi_ssid_name := (memcpy (memset (init mem0).wifi_ssid_name 0 WIFI_SSID_LEN) s s.length) } := by
    simp [step, writeSsid, accepted, hsacc, gatt_store, on_data_written]
  have h2 : ∀ st : State, st.wifi_connect_status = 0 → step (writePwd p) st = some
      { st with wifi_pwd := memcpy (memset st.wifi_pwd 0 WIFI_PWD_LEN) p p.length } := by
    intro st hf
    simp [step, writePwd, accepted, hpacc, gatt_store, on_data_written, hf]
  have hc1 := c_str_store (List.replicate WIFI_SSID_LEN 0) s WIFI_SSID_LEN (by simp)
    (by simp [WIFI_SSID_LEN]; omega) hs0
  have hc2 := c_str_store (List.replicate WIFI_PWD_LEN 0) p WIFI_PWD_LEN (by simp)
    (by simp [WIFI_PWD_LEN]; omega) hp0
  have hh1 := headD_store (List.replicate WIFI_SSID_LEN 0) s WIFI_SSID_LEN (by simp)
  have hh2 := headD_store (List.replicate WIFI_PWD_LEN 0) p WIFI_PWD_LEN (by simp)
  have hsh : s.headD 0 ≠ 0 := by
    cases s with
    | nil => exact absurd rfl hs
    | cons a r =>
      intro h
      apply hs0
      simp only [List.headD_cons] at h
      simp [h]
  have hph : p.headD 0 = 0 ↔ p = [] := by
    cases p with
    | nil => simp
    | cons a r =>
      constructor
      · intro h
        exfalso
        apply hp0
        simp only [List.headD_cons] at h
        simp [h]
      · intro h
        cases h
  constructor
  · simp only [run, h1, Option.some_bind]
    rw [h2 _ rfl]
    simp [init]
  · simp only [run, h1, Option.some_bind]
    rw [h2 _ rfl]
    simp only [Option.some_bind]
    rw [step_writeStatus_admits _ b hb (by simp [init]) (by
      show (memcpy (memset (List.replicate WIFI_SSID_LEN 0) 0 WIFI_SSID_LEN) s s.length).headD 0 ≠ 0
      rw [hh1]
      exact hsh)]
    simp only [Option.some_bind]
    rw [step_workerAcquire_enabled _ rfl (by simp [sem_release, init, SEM_MAX_COUNT])]
    simp only [Option.some_bind, Option.map_some']
    simp only [wifi_connect_thread_begin, sem_release, connect_security, init, hc1, hc2, hh2,
      hph]
    simp [SEM_MAX_COUNT]

/-- Witness for C1: SSID "HomeNet", empty password, status byte `1`. -/
theorem handshake_then_status_write_connects_once_witness :
    (run [writeSsid homeNet, writePwd [], writeStatus 1, Step.workerAcquire] (init 0)).map
        (fun st => (st.log, st.sem))
      = some ([Call.sem_release,
          Call.connect homeNet [] nsapi_security_t.NSAPI_SECURITY_NONE], 0) :=
  (handshake_then_status_write_connects_once 0 homeNet [] 1 (by decide) (by decide)
    (by decide) (by decide) (by decide) (by decide)).2

/-- C1 refuted as stated: from start-up the writes SSID "HomeNet", password "" make no call at
all, leave no token, and the worker cannot leave `acquire()`: no `connect` call is made. -/
theorem handshake_alone_issues_no_signal :
    (run [writeSsid homeNet, writePwd []] (init 0)).map
        (fun st => (st.log, st.sem, st.wifi_connect_status, st.worker))
      = some ([], 0, 0, WorkerPc.acquire) ∧
    run [writeSsid homeNet, writePwd [], Step.workerAcquire] (init 0) = none := by
  constructor <;> decide

/-! ## The status-write connect request -/

/-- What the worker does to the status when `connect` returns: a failure mirrors `false` into
the attribute and the cached flag; a success touches neither. -/
theorem wifi_connect_thread_resume_status (ret : Int) (st : State) :
    (ret ≠ 0 →
      (wifi_connect_thread_resume ret st).gatt_status = 0 ∧
      (wifi_connect_thread_resume ret st).wifi_connect_status = 0 ∧
      (wifi_connect_thread_resume ret st).wifi_status ≠
        nsapi_connection_status_t.NSAPI_STATUS_GLOBAL_UP) ∧
    (ret = 0 →
      (wifi_connect_thread_resume ret st).gatt_status = st.gatt_status ∧
      (wifi_connect_thread_resume ret st).wifi_connect_status = st.wifi_connect_status ∧
      (wifi_connect_thread_resume ret st).log = st.log ∧
      (wifi_connect_thread_resume ret st).wifi_status =
        nsapi_connection_status_t.NSAPI_STATUS_GLOBAL_UP) := by
  constructor
  · intro h
    by_cases hg : st.gatt_status = 0 <;>
      simp [wifi_connect_thread_resume, update_wifi_connection_status, gattServer_write, h, hg]
  · intro h
    simp [wifi_connect_thread_resume, h]

/-- C4, the code at a failing input: SSID "HomeNet" and status `1` are written (a token is
released), status `0` is written before the worker takes the token, the worker then connects
and `connect` returns `0`.  The interface is up, one `connect` call was made, and the status
attribute and the cached flag are both `0`. -/
theorem successful_join_leaves_status_false :
    (run [writeSsid homeNet, writeStatus 1, writeStatus 0, Step.workerAcquire,
          Step.connectReturns 0] (init 0)).map
        (fun st => (st.wifi_status, st.gatt_status, st.wifi_connect_status, connects st.log))
      = some (nsapi_connection_status_t.NSAPI_STATUS_GLOBAL_UP, 0, 0, 1) := by
  decide

/-! ## Connect calls and the stored SSID -/

/-- C8, the code at a failing input: SSID "A" and status `1` are written (a token is
released), the SSID is rewritten to empty while the token is pending, and the worker then
calls `connect` with the empty SSID. -/
theorem connect_called_with_empty_ssid :
    (run [writeSsid [65], writeStatus 1, writeSsid []] (init 0)).map
        (fun st => (st.wifi_ssid_name.headD 0, st.sem, st.log))
      = some (0, 1, [Call.sem_release]) ∧
    (run [writeSsid [65], writeStatus 1, writeSsid [], Step.workerAcquire] (init 0)).map
        (fun st => (st.wifi_ssid_name.headD 0, st.log))
      = some (0, [Call.sem_release,
          Call.connect [] [] nsapi_security_t.NSAPI_SECURITY_NONE]) := by
  constructor <;> decide

/-! ## Tokens and join attempts -/

/-- The callback makes no `connect` call, and every token it adds is matched by a `release()`
call in the trace. -/
theorem on_data_written_tokens (params : GattWriteCallbackParams) (st : State) :
    connects (on_data_written params st).log = connects st.log ∧
    releases st.log ≤ releases (on_data_written params st).log ∧
    (on_data_written params st).sem + releases st.log
      ≤ st.sem + releases (on_data_written params st).log := by
  obtain ⟨handle, data⟩ := params
  cases handle
  · simp [on_data_written]
  · by_cases hf : st.wifi_connect_status = 0 <;>
      by_cases hu : st.wifi_status = nsapi_connection_status_t.NSAPI_STATUS_GLOBAL_UP <;>
      by_cases hs : st.wifi_ssid_name.headD 0 = 0 <;>
      (simp [on_data_written, check_and_let_wifi_connect, sem_release, gattServer_write,
        hf, hu, hs, -List.headD_eq_head?_getD]
       first | done | omega | (split <;> omega))
  · by_cases hb : data.headD 0 = 0 <;>
      by_cases hu : st.wifi_status = nsapi_connection_status_t.NSAPI_STATUS_GLOBAL_UP <;>
      by_cases hs : st.wifi_ssid_name.headD 0 = 0 <;>
      (simp [on_data_written, check_and_let_wifi_connect, sem_release, gattServer_write,
        wifi_disconnect, hb, hu, hs, -List.headD_eq_head?_getD]
       first | done | omega | (split <;> omega))
  · simp [on_data_written]

/-- One step: `connect` calls plus pending tokens grow by at most the number of new
`release()` calls. -/
theorem step_tokens (s : Step) (st st' : State) (h : step s st = some st') :
    releases st.log ≤ releases st'.log ∧
    connects st'.log + st'.sem + releases st.log
      ≤ connects st.log + st.sem + releases st'.log := by
  cases s with
  | written params =>
    by_cases hacc : accepted params
    · simp only [step, hacc, if_true, Option.some.injEq] at h
      subst h
      have hk := on_data_written_tokens params (gatt_store params st)
      have hlog : (gatt_store params st).log = st.log := by
        unfold gatt_store; split <;> rfl
      have hsem : (gatt_store params st).sem = st.sem := by
        unfold gatt_store; split <;> rfl
      rw [hlog, hsem] at hk
      omega
    · simp [step, hacc] at h
  | bleDisconnected =>
    simp only [step, Option.some.injEq] at h
    subst h
    simp [onDisconnectionComplete]
  | workerAcquire =>
    by_cases hen : st.worker = WorkerPc.acquire ∧ 0 < st.sem
    · simp only [step, if_pos hen, Option.some.injEq] at h
      subst h
      have hpos := hen.2
      simp [wifi_connect_thread_begin]
      omega
    · simp [step, hen] at h
  | connectReturns ret =>
    by_cases hen : st.worker = WorkerPc.connect
    · simp only [step, hen, if_true, Option.some.injEq] at h
      subst h
      by_cases hr : ret = 0 <;> by_cases hg : st.gatt_status = 0 <;>
        simp [wifi_connect_thread_resume, update_wifi_connection_status, gattServer_write,
          hr, hg]
    · simp [step, hen] at h
  | linkDown =>
    by_cases hen : st.wifi_status = nsapi_connection_status_t.NSAPI_STATUS_GLOBAL_UP
    · simp only [step, hen, if_true, Option.some.injEq] at h
      subst h
      simp
    · simp [step, hen] at h
  | probeBreak =>
    by_cases hen : st.worker = WorkerPc.probe ∧
        st.wifi_status ≠ nsapi_connection_status_t.NSAPI_STATUS_GLOBAL_UP
    · simp only [step, if_pos hen, Option.some.injEq] at h
      subst h
      simp [get_ntp_timestamp_break]
    · simp [step, hen] at h

/-- Along any run: `connect` calls plus pending tokens grow by at most the number of new
`release()` calls. -/
theorem run_tokens (steps : List Step) (st st' : State) (h : run steps st = some st') :
    releases st.log ≤ releases st'.log ∧
    connects st'.log + st'.sem + releases st.log
      ≤ connects st.log + st.sem + releases st'.log := by
  induction steps generalizing st with
  | nil =>
    simp only [run, Option.some.injEq] at h
    subst h
    simp
  | cons s rest ih =>
    simp only [run] at h
    cases hs : step s st with
    | none => simp [hs] at h
    | some mid =>
      rw [hs, Option.some_bind] at h
      have h1 := step_tokens s st mid hs
      have h2 := ih mid h
      omega

/-- Repeated connect requests while the interface is not up: each one is a `release()` call
and a token, up to the maximum count of the semaphore. -/
theorem run_status_requests (N : Nat) (st : State)
    (hup : st.wifi_status ≠ nsapi_connection_status_t.NSAPI_STATUS_GLOBAL_UP)
    (hssid : st.wifi_ssid_name.headD 0 ≠ 0) :
    ∃ stN, run (List.replicate N (writeStatus 1)) st = some stN ∧
      releases stN.log = releases st.log + N ∧
      connects stN.log = connects st.log ∧
      stN.sem ≤ st.sem + N ∧
      (st.sem + N ≤ SEM_MAX_COUNT → stN.sem = st.sem + N) ∧
      (st.sem ≤ SEM_MAX_COUNT → SEM_MAX_COUNT ≤ st.sem + N → stN.sem = SEM_MAX_COUNT) ∧
      stN.worker = st.worker := by
  induction N generalizing st with
  | zero =>
    refine ⟨st, rfl, by simp, rfl, by simp, fun _ => rfl, fun h1 h2 => ?_, rfl⟩
    simp only [Nat.add_zero] at h2
    exact Nat.le_antisymm h1 h2
  | succ n ih =>
    obtain ⟨stN, h1, h2, h3, h4, h5, h6, h7⟩ :=
      ih (sem_release { st with gatt_status := 1, wifi_connect_status := 1 }) hup hssid
    have hsem : (sem_release { st with gatt_status := 1, wifi_connect_status := 1 }).sem
        = if st.sem < SEM_MAX_COUNT then st.sem + 1 else st.sem := rfl
    rw [hsem] at h4 h5 h6
    generalize SEM_MAX_COUNT = M at h4 h5 h6 ⊢
    refine ⟨stN, ?_, ?_, ?_, ?_, ?_, ?_, ?_⟩
    · simp only [List.replicate_succ, run,
        step_writeStatus_admits st 1 (by decide) hup hssid, Option.some_bind]
      exact h1
    · rw [h2]
      simp
      omega
    · rw [h3]
      simp
    · split at h4 <;> omega
    · intro hle
      split at h5 <;> omega
    · intro hle hge
      split at h6 <;> omega
    · rw [h7]
      rfl

/-- C3 (as amended): if `N` connect requests arrive while a `connect` call is in flight (the
worker is inside `connect`, no token pending before them), each of them is a `release()`
call and the semaphore then holds `N` tokens, capped at its maximum count 65535; from
there on, as long as no new `release()` call is made, the worker makes at most `N` further
`connect` calls (one per pending token, one after the other), not at most one. -/
theorem pending_signals_bound_further_connects (st : State) (N : Nat)
    (hw : st.worker = WorkerPc.connect) (hsem : st.sem = 0)
    (hup : st.wifi_status ≠ nsapi_connection_status_t.NSAPI_STATUS_GLOBAL_UP)
    (hssid : st.wifi_ssid_name.headD 0 ≠ 0) :
    ∃ stN, run (List.replicate N (writeStatus 1)) st = some stN ∧
      stN.worker = WorkerPc.connect ∧
      releases stN.log = releases st.log + N ∧
      connects stN.log = connects st.log ∧
      (N ≤ SEM_MAX_COUNT → stN.sem = N) ∧
      (SEM_MAX_COUNT ≤ N → stN.sem = SEM_MAX_COUNT) ∧
      ∀ (steps : List Step) (st' : State), run steps stN = some st' →
        releases st'.log = releases stN.log →
        connects st'.log ≤ connects stN.log + N := by
  obtain ⟨stN, h1, h2, h3, h4, h5, h6, h7⟩ := run_status_requests N st hup hssid
  rw [hsem] at h4 h5 h6
  simp only [Nat.zero_add] at h4 h5 h6
  refine ⟨stN, h1, by rw [h7, hw], h2, h3, h5, h6 (Nat.zero_le _), ?_⟩
  intro steps st' hrun hrel
  have hk := (run_tokens steps stN st' hrun).2
  omega

/-- Witness for C3: two connect requests while the first `connect` call is in flight; the
call fails and the worker takes one of the two pending tokens. -/
theorem pending_signals_bound_further_connects_witness :
    ∃ stN, run (List.replicate 2 (writeStatus 1))
        { init 0 with
          wifi_ssid_name := (homeNet ++ List.replicate 26 0)
          worker := WorkerPc.connect
          wifi_status := nsapi_connection_status_t.NSAPI_STATUS_CONNECTING } = some stN ∧
      stN.sem = 2 := by
  obtain ⟨stN, h1, _, _, _, h5, _⟩ := pending_signals_bound_further_connects
    { init 0 with
      wifi_ssid_name := (homeNet ++ List.replicate 26 0)
      worker := WorkerPc.connect
      wifi_status := nsapi_connection_status_t.NSAPI_STATUS_CONNECTING } 2 rfl rfl
    (by decide) (by decide)
  exact ⟨stN, h1, h5 (by decide)⟩

/-- C3 refuted as stated: SSID "A" and status `1` start a join; while that `connect` call is
in flight two more status writes of `1` arrive (three `release()` calls so far, one
`connect` call); the call fails, and with no further `release()` call the worker makes two
more `connect` calls. -/
theorem two_pending_signals_give_two_further_connects :
    (run [writeSsid [65], writeStatus 1, Step.workerAcquire, writeStatus 1, writeStatus 1,
          Step.connectReturns (-1)] (init 0)).map
        (fun st => (releases st.log, connects st.log, st.sem))
      = some (3, 1, 2) ∧
    (run [writeSsid [65], writeStatus 1, Step.workerAcquire, writeStatus 1, writeStatus 1,
          Step.connectReturns (-1), Step.workerAcquire, Step.connectReturns (-1),
          Step.workerAcquire] (init 0)).map
        (fun st => (releases st.log, connects st.log, st.sem))
      = some (3, 3, 0) := by
  constructor <;> decide

end WifiProvisioning
